import Mathlib

/-!
Verification development for the 3D robot-arm simulator
(`objectManager.js`, `robotArm.js`, `storage.js` / level manager).

Geometry and physics are embedded over the real numbers; JS `number`
arithmetic is idealised as exact real arithmetic. Times and the
storage layer use the rationals. JS truthiness on numeric fields
(`x || d`, `!x`) is modelled explicitly wherever the source relies
on it.
-/

namespace Arm3D

/-- `THREE.Vector3`: a 3-component real vector. -/
structure Vec3 where
  x : ℝ
  y : ℝ
  z : ℝ

namespace Vec3

/-- Component-wise subtraction (`new THREE.Vector3().subVectors(a, b)`). -/
def sub (a b : Vec3) : Vec3 := ⟨a.x - b.x, a.y - b.y, a.z - b.z⟩

/-- `THREE.Vector3.length()`: Euclidean norm. -/
noncomputable def length (v : Vec3) : ℝ := Real.sqrt (v.x ^ 2 + v.y ^ 2 + v.z ^ 2)

/-- `a.distanceTo(b)`: Euclidean distance. -/
noncomputable def distanceTo (a b : Vec3) : ℝ := (sub a b).length

/-- `this.addScaledVector(v, s)`: `a + v * s`. -/
def addScaledVector (a v : Vec3) (s : ℝ) : Vec3 :=
  ⟨a.x + v.x * s, a.y + v.y * s, a.z + v.z * s⟩

/-- `THREE.Vector3.normalize()`: `divideScalar(length() || 1)` — a zero
vector is divided by 1 and therefore left unchanged. -/
noncomputable def normalize (v : Vec3) : Vec3 :=
  let d := if v.length = 0 then 1 else v.length
  ⟨v.x / d, v.y / d, v.z / d⟩

end Vec3

/-- Shape kind of a manipulable object (`'cube' | 'sphere' | 'cylinder'`). -/
inductive Shape where
  | cube
  | sphere
  | cylinder
deriving DecidableEq, Repr

/-- A manipulable object: the mesh position together with the
`userData` physics record built by `ObjectManager.spawnObject`.
`userDataSize` stands for the `size` property of `userData`, which
`spawnObject` never assigns (it stores only `radius`), hence it is
`none` for every spawned object; `spawnSize` records the `size`
argument that parameterised the geometry (`geometry.parameters`). -/
structure Obj where
  id : ℕ
  shape : Shape
  spawnSize : ℝ
  color : String
  pos : Vec3
  vel : Vec3
  pickable : Bool
  isStatic : Bool
  radius : ℝ
  onFloor : Bool
  userDataSize : Option ℝ

/-- An arm collision sphere from `RobotArmSimulator.getColliders()`. -/
structure Collider where
  pos : Vec3
  radius : ℝ

/-- The `ObjectManager` state: the object registry (a `Map` in insertion
order) and the id of the currently attached object
(`this.attachedObject && this.attachedObject.userData.id`). -/
structure Mgr where
  objects : List Obj
  attachedId : Option ℕ

/-- `this.gravity` set in the `ObjectManager` constructor. -/
def gravity : ℝ := -9.8

/-- `ObjectManager.spawnObject(type, position, color, size)`: the spawned
object's physics state. All three geometry branches set
`radius = size / 2`; `userData` gets `pickable: true`, zero velocity,
`isStatic: false`, `onFloor: false` — and no `size` field. -/
noncomputable def spawnObject (id : ℕ) (shape : Shape) (position : Vec3)
    (color : String := "#ff6b35") (size : ℝ := 0.3) : Obj :=
  { id := id
    shape := shape
    spawnSize := size
    color := color
    pos := position
    vel := ⟨0, 0, 0⟩
    pickable := true
    isStatic := false
    radius := size / 2
    onFloor := false
    userDataSize := none }

/-- `dt = Math.min(dt, 0.05)` at the top of `ObjectManager.update`. -/
noncomputable def clampDt (dt : ℝ) : ℝ := min dt 0.05

/-- Gravity application in `ObjectManager.update`:
`if (!u.onFloor) u.velocity.y += this.gravity * dt`. -/
noncomputable def stepGravity (dt : ℝ) (o : Obj) : Obj :=
  if o.onFloor then o
  else { o with vel := ⟨o.vel.x, o.vel.y + gravity * dt, o.vel.z⟩ }

/-- Velocity integration: `obj.position.addScaledVector(u.velocity, dt)`. -/
noncomputable def stepIntegrate (dt : ℝ) (o : Obj) : Obj :=
  { o with pos := o.pos.addScaledVector o.vel dt }

/-- Floor collision in `ObjectManager.update`: clamp height to the
radius, zero vertical velocity, apply `0.9` horizontal friction and set
`onFloor`; otherwise clear `onFloor`. -/
noncomputable def stepFloor (o : Obj) : Obj :=
  if o.pos.y < o.radius then
    { o with pos := ⟨o.pos.x, o.radius, o.pos.z⟩
             vel := ⟨o.vel.x * 0.9, 0, o.vel.z * 0.9⟩
             onFloor := true }
  else
    { o with onFloor := false }

/-- One arm-collider interaction (the body of the `for ... of armColliders`
loop): on overlap, push the object out along the outward direction —
deflected to a `0.1` upward component if it points downward, then
re-normalized — by `1.5 ×` the penetration, and add `2.0 ×` the direction
to the velocity. -/
noncomputable def stepCollider (o : Obj) (c : Collider) : Obj :=
  let dist := o.pos.distanceTo c.pos
  let minDist := o.radius + c.radius
  if dist < minDist then
    let pushDir0 := (Vec3.sub o.pos c.pos).normalize
    let pushDir1 := if pushDir0.y < 0 then { pushDir0 with y := 0.1 } else pushDir0
    let pushDir := pushDir1.normalize
    let overlap := minDist - dist
    { o with pos := o.pos.addScaledVector pushDir (overlap * 1.5)
             vel := o.vel.addScaledVector pushDir 2.0 }
  else o

/-- The per-object body of `ObjectManager.update` (gravity, integration,
floor collision, then the arm-collider loop in order). -/
noncomputable def stepObject (dt : ℝ) (colliders : List Collider) (o : Obj) : Obj :=
  colliders.foldl stepCollider (stepFloor (stepIntegrate dt (stepGravity dt o)))

namespace ObjectManager

/-- `ObjectManager.update(dt, armColliders)`: clamp `dt`, then step every
object that is neither the attached object nor static. -/
noncomputable def update (dt : ℝ) (armColliders : List Collider) (m : Mgr) : Mgr :=
  let dt := clampDt dt
  { m with objects := m.objects.map fun o =>
      if m.attachedId = some o.id then o
      else if o.isStatic then o
      else stepObject dt armColliders o }

end ObjectManager

/-- JS `x || d` on a possibly-undefined numeric property: `undefined`
and `0` are falsy and fall through to the default. -/
noncomputable def jsOrNum (x : Option ℝ) (d : ℝ) : ℝ :=
  match x with
  | none => d
  | some v => if v = 0 then d else v

/-- The effective object size read in `checkClamping`:
`obj.geometry.parameters.width || obj.geometry.parameters.radius * 2 || 0.3`.
A `BoxGeometry` has `width = size`; a `SphereGeometry` has
`radius = size / 2` so `radius * 2 = size`; a `CylinderGeometry` has
neither a `width` nor a `radius` parameter, so the chain falls through
to `0.3` (and a zero size is falsy and also falls through). -/
noncomputable def geomSize (o : Obj) : ℝ :=
  match o.shape with
  | .cube => if o.spawnSize = 0 then 0.3 else o.spawnSize
  | .sphere => if o.spawnSize = 0 then 0.3 else o.spawnSize
  | .cylinder => 0.3

/-- The body of the candidate loop in `ObjectManager.checkClamping`:
skip non-pickable and attached objects, then keep the object as the new
best candidate when its distance beats the current bound and the gripper
width lies within `[objSize - 0.05, objSize + 0.2]`. -/
noncomputable def clampStep (centerPos : Vec3) (gripperWidth : ℝ)
    (attachedId : Option ℕ) (acc : Option Obj × ℝ) (o : Obj) : Option Obj × ℝ :=
  if o.pickable = false then acc
  else if attachedId = some o.id then acc
  else
    let distance := centerPos.distanceTo o.pos
    if distance < acc.2 then
      let objSize := geomSize o
      if gripperWidth ≥ objSize - 0.05 ∧ gripperWidth ≤ objSize + 0.2 then
        (some o, distance)
      else acc
    else acc

namespace ObjectManager

/-- `ObjectManager.checkClamping(centerPos, gripperWidth, leftFingerPos,
rightFingerPos)`: scan the registry with the shrinking best-distance
bound initialized to `1.0`, then accept the best candidate only when its
distance is below the strict `0.3` bound. The two finger positions are
parameters of the source function but unused in its body. -/
noncomputable def checkClamping (m : Mgr) (centerPos : Vec3) (gripperWidth : ℝ)
    (leftFingerPos rightFingerPos : Vec3) : Option Obj :=
  let r := m.objects.foldl (clampStep centerPos gripperWidth m.attachedId) (none, 1.0)
  match r.1 with
  | some o => if r.2 < 0.3 then some o else none
  | none => none

/-- `ObjectManager.attachToGripper(object, attachPoint)`: record the
attachment (the emissive tint and the `attachPoint` handle are visual
bookkeeping outside this embedding). -/
def attachToGripper (m : Mgr) (o : Obj) : Mgr :=
  { m with attachedId := some o.id }

/-- `ObjectManager.releaseObject()`: clear the attachment, re-enable
physics (`onFloor = false`) and reset the released object's velocity to
zero. -/
def releaseObject (m : Mgr) : Mgr :=
  match m.attachedId with
  | none => m
  | some attId =>
    { objects := m.objects.map fun o =>
        if o.id = attId then { o with onFloor := false, vel := ⟨0, 0, 0⟩ } else o
      attachedId := none }

/-- `ObjectManager.updateAttachedObject(gripperWorldPosition)`: snap the
attached object to the gripper position raised by `0.3`. -/
def updateAttachedObject (m : Mgr) (gripperPos : Vec3) : Mgr :=
  match m.attachedId with
  | none => m
  | some attId =>
    { m with objects := m.objects.map fun o =>
        if o.id = attId then
          { o with pos := ⟨gripperPos.x, gripperPos.y + 0.3, gripperPos.z⟩ }
        else o }

end ObjectManager

/-- `THREE.MathUtils.degToRad`. -/
noncomputable def degToRad (d : ℝ) : ℝ := d * (Real.pi / 180)

/-- The finger spread in `RobotArmSimulator.updateJoints`:
`openDistance = degToRad(angles.gripper) * 0.4`. -/
noncomputable def openDistance (gripperAngle : ℝ) : ℝ := degToRad gripperAngle * 0.4

/-- `RobotArmSimulator.getGripperWidth()` and the inline
`currentGripperWidth` in `updateJoints`: `0.16 + openDistance * 2`. -/
noncomputable def gripperWidthOf (gripperAngle : ℝ) : ℝ :=
  0.16 + openDistance gripperAngle * 2

namespace RobotArm

/-- Step 2 of the grasp logic in `RobotArmSimulator.updateJoints`
(lines 573–589): when nothing is attached and the gripper angle is
strictly between 0 and 40 degrees, attach the object selected by
`checkClamping`, if any. -/
noncomputable def attachPhase (gripperAngle : ℝ) (gripperPos leftFinger rightFinger : Vec3)
    (m : Mgr) : Mgr :=
  if m.attachedId = none then
    if gripperAngle < 40 ∧ gripperAngle > 0 then
      match ObjectManager.checkClamping m gripperPos (gripperWidthOf gripperAngle)
          leftFinger rightFinger with
      | some o => ObjectManager.attachToGripper m o
      | none => m
    else m
  else m

/-- Step 3 of the grasp logic in `RobotArmSimulator.updateJoints`
(lines 591–598): release when the gripper width exceeds
`attachedObject.userData.size || 0.3` plus `0.1`. -/
noncomputable def releasePhase (gripperAngle : ℝ) (m : Mgr) : Mgr :=
  match m.attachedId with
  | none => m
  | some attId =>
    match m.objects.find? (fun o => o.id = attId) with
    | none => m
    | some o =>
      let objSize := jsOrNum o.userDataSize 0.3
      if gripperWidthOf gripperAngle > objSize + 0.1 then
        ObjectManager.releaseObject m
      else m

/-- The full grasp portion of `RobotArmSimulator.updateJoints`
(lines 563–602): attach check, then release check, then reposition the
attached object at the gripper. -/
noncomputable def updateJointsGrasp (gripperAngle : ℝ)
    (gripperPos leftFinger rightFinger : Vec3) (m : Mgr) : Mgr :=
  ObjectManager.updateAttachedObject
    (releasePhase gripperAngle (attachPhase gripperAngle gripperPos leftFinger rightFinger m))
    gripperPos

end RobotArm

/-- The `progress` record persisted by `Storage` (times in seconds as
rationals; the star and best-time tables are keyed by level id). -/
structure Progress where
  unlockedLevels : List ℕ
  completedLevels : List ℕ
  levelStars : ℕ → Option ℕ
  levelBestTimes : ℕ → Option ℚ

namespace Storage

/-- The `progress` part of `Storage.getDefaultData()`. -/
def defaultProgress : Progress :=
  { unlockedLevels := [0]
    completedLevels := []
    levelStars := fun _ => none
    levelBestTimes := fun _ => none }

/-- The guard `!data.progress.levelStars[levelId] ||
data.progress.levelStars[levelId] < stars`: a missing entry and a stored
`0` are both falsy. -/
def starsOverwrite (stored : Option ℕ) (stars : ℕ) : Bool :=
  match stored with
  | none => true
  | some s => s == 0 || s < stars

/-- The guard `!data.progress.levelBestTimes[levelId] ||
data.progress.levelBestTimes[levelId] > time`: a missing entry and a
stored `0` are both falsy. -/
def timeOverwrite (stored : Option ℚ) (time : ℚ) : Bool :=
  match stored with
  | none => true
  | some b => b == 0 || decide (b > time)

/-- `Storage.saveProgress(levelId, stars, time)` acting on the
`progress` record: conditionally overwrite stars and best time, mark the
level completed, and unlock the next level up to id 10. -/
def saveProgress (p : Progress) (levelId : ℕ) (stars : ℕ) (time : ℚ) : Progress :=
  let newStars :=
    if starsOverwrite (p.levelStars levelId) stars then
      fun k => if k = levelId then some stars else p.levelStars k
    else p.levelStars
  let newTimes :=
    if timeOverwrite (p.levelBestTimes levelId) time then
      fun k => if k = levelId then some time else p.levelBestTimes k
    else p.levelBestTimes
  let newCompleted :=
    if levelId ∈ p.completedLevels then p.completedLevels
    else p.completedLevels ++ [levelId]
  let nextLevelId := levelId + 1
  let newUnlocked :=
    if nextLevelId ≤ 10 ∧ nextLevelId ∉ p.unlockedLevels then
      p.unlockedLevels ++ [nextLevelId]
    else p.unlockedLevels
  { unlockedLevels := newUnlocked
    completedLevels := newCompleted
    levelStars := newStars
    levelBestTimes := newTimes }

end Storage

/-- A target zone as created by `LevelManager.createTarget`: the mesh
position plus the spread level-descriptor fields in `userData`
(`size` doubles as the acceptance radius; `accepts` may be absent). -/
structure Target where
  pos : Vec3
  size : ℝ
  accepts : Option (List Shape)
  requiredColor : Option String

/-- A `targetStates` entry: whether the target is filled, and the id of
the object recorded as satisfying it. -/
structure TargetState where
  filled : Bool
  objId : Option ℕ

/-- The level-descriptor fields `LevelManager.update` and
`calculateStars` read: the optional time limit and the optional
ascending star thresholds `stars.time = [t0, t1, t2]` (a missing `stars`
object and a missing `stars.time` array are collapsed into one
`Option`). -/
structure Level where
  id : ℕ
  timeLimit : Option ℚ
  starTimes : Option (ℚ × ℚ × ℚ)

/-- The `LevelManager` state used by its per-frame update. -/
structure LM where
  currentLevel : Option Level
  isActive : Bool
  levelStartTime : ℚ
  elapsedTime : ℚ
  targetMeshes : List Target
  targetStates : List TargetState

/-- The frame result `{status: 'playing'|'completed'|'failed'}` returned
by `LevelManager.update` (the only failure reason is `'timeout'`). -/
inductive LevelResult where
  | playing (time : ℚ)
  | completed (time : ℚ) (stars : ℕ)
  | failedTimeout
deriving DecidableEq

/-- The fill test inside `LevelManager.updateTargetStates`: the object
lies strictly within the target's acceptance radius, the target has an
`accepts` list containing the object's shape kind, and the required
color, when present, matches case-insensitively (`obj.color` stands for
`'#' + material.color.getHexString()`). -/
noncomputable def fillsTarget (o : Obj) (t : Target) : Prop :=
  o.pos.distanceTo t.pos < t.size ∧
  (∃ l, t.accepts = some l ∧ o.shape ∈ l) ∧
  (∀ rc, t.requiredColor = some rc → o.color.toLower = rc.toLower)

open Classical in
/-- The inner `for (let i = 0;...)` loop of `updateTargetStates` for one
object: fill the first target the object satisfies and `break`; on a
non-match (including a color mismatch, which `continue`s) move on to the
next target. -/
noncomputable def applyObj (o : Obj) : List Target → List TargetState → List TargetState
  | t :: ts, s :: ss =>
    if fillsTarget o t then { filled := true, objId := some o.id } :: ss
    else s :: applyObj o ts ss
  | _, ss => ss

namespace LevelManager

/-- `LevelManager.updateTargetStates()`: reset every state to unfilled,
then let each live object (in registry order) claim the first target it
satisfies. -/
noncomputable def updateTargetStates (objects : List Obj) (targets : List Target) :
    List TargetState :=
  objects.foldl (fun states o => applyObj o targets states)
    (targets.map fun _ => { filled := false, objId := none })

/-- `LevelManager.calculateStars()`: `1` without a level or thresholds,
else `3 / 2 / 1 / 1` by comparing the elapsed time against the three
thresholds in order. -/
def calculateStars (lm : LM) : ℕ :=
  match lm.currentLevel with
  | none => 1
  | some lvl =>
    match lvl.starTimes with
    | none => 1
    | some (t0, t1, t2) =>
      if lm.elapsedTime ≤ t0 then 3
      else if lm.elapsedTime ≤ t1 then 2
      else if lm.elapsedTime ≤ t2 then 1
      else 1

/-- The guard `this.currentLevel.timeLimit && this.elapsedTime >
this.currentLevel.timeLimit`: a missing or zero time limit is falsy and
skips the timeout check. -/
def timeLimitHit (lvl : Level) (elapsed : ℚ) : Bool :=
  match lvl.timeLimit with
  | none => false
  | some tl => !(tl == 0) && decide (elapsed > tl)

/-- `LevelManager.update()` (call once per frame): `null` unless active
with a loaded level; recompute the elapsed time from the wall clock
`now` (milliseconds); fail on timeout before evaluating the win
condition; otherwise re-derive the target states from the live objects
and report `completed` (with stars) when all targets are filled, else
`playing`. -/
noncomputable def update (now : ℚ) (objects : List Obj) (lm : LM) :
    Option LevelResult × LM :=
  if lm.isActive = false then (none, lm)
  else
    match lm.currentLevel with
    | none => (none, lm)
    | some lvl =>
      let lm1 := { lm with elapsedTime := (now - lm.levelStartTime) / 1000 }
      if timeLimitHit lvl lm1.elapsedTime then (some .failedTimeout, lm1)
      else
        let states := updateTargetStates objects lm1.targetMeshes
        let lm2 := { lm1 with targetStates := states }
        if states.all (fun s => s.filled) then
          (some (.completed lm2.elapsedTime (calculateStars lm2)), lm2)
        else (some (.playing lm2.elapsedTime), lm2)

end LevelManager

/-! ## Helper lemmas -/

/-- Evaluate a Euclidean distance whose squared value is a perfect
square. -/
theorem distanceTo_eq (a b : Vec3) (r : ℝ) (h0 : 0 ≤ r)
    (h : (a.x - b.x) ^ 2 + (a.y - b.y) ^ 2 + (a.z - b.z) ^ 2 = r ^ 2) :
    a.distanceTo b = r := by
  unfold Vec3.distanceTo Vec3.length Vec3.sub
  simp only
  rw [h, Real.sqrt_sq h0]

/-! ## C4: the integrator clamps dt to 0.05 -/

/-- C4: for every registry state and every `dt ≥ 0.05`, one physics
update with elapsed time `dt` produces exactly the same post-state as
one update with elapsed time `0.05`, because `ObjectManager.update`
first replaces `dt` by `min(dt, 0.05)`. -/
theorem update_dt_clamped (dt : ℝ) (cs : List Collider) (m : Mgr)
    (h : 0.05 ≤ dt) :
    ObjectManager.update dt cs m = ObjectManager.update 0.05 cs m := by
  unfold ObjectManager.update clampDt
  rw [min_eq_right h, min_self]

/-- Witness for C4: a single update with `dt = 1.0` equals a single
update with `dt = 0.05` on a concrete one-object registry. -/
theorem update_dt_clamped_witness :
    (0.05 : ℝ) ≤ 1 ∧
    ObjectManager.update 1 [] ⟨[spawnObject 1 .cube ⟨0, 0.15, 0⟩ "#ff6b35" 0.3], none⟩ =
      ObjectManager.update 0.05 [] ⟨[spawnObject 1 .cube ⟨0, 0.15, 0⟩ "#ff6b35" 0.3], none⟩ :=
  ⟨by norm_num, update_dt_clamped 1 [] _ (by norm_num)⟩

/-! ## C7: star computation -/

/-- C7: with ascending thresholds `[t0, t1, t2]`, the computed star
count is 3 for `time ≤ t0`, 2 for `t0 < time ≤ t1`, 1 for
`t1 < time ≤ t2`, 1 beyond `t2`, and the star count is never 0 (for any
manager state whatsoever). -/
theorem calculateStars_cases (lm : LM) (lvl : Level) (t0 t1 t2 : ℚ)
    (hlvl : lm.currentLevel = some lvl) (hst : lvl.starTimes = some (t0, t1, t2))
    (h01 : t0 ≤ t1) (h12 : t1 ≤ t2) :
    (lm.elapsedTime ≤ t0 → LevelManager.calculateStars lm = 3) ∧
    (t0 < lm.elapsedTime → lm.elapsedTime ≤ t1 → LevelManager.calculateStars lm = 2) ∧
    (t1 < lm.elapsedTime → lm.elapsedTime ≤ t2 → LevelManager.calculateStars lm = 1) ∧
    (t2 < lm.elapsedTime → LevelManager.calculateStars lm = 1) ∧
    (∀ lm' : LM, LevelManager.calculateStars lm' ≠ 0) := by
  have hnz : ∀ lm' : LM, LevelManager.calculateStars lm' ≠ 0 := by
    intro lm'
    unfold LevelManager.calculateStars
    split
    · simp
    · split
      · simp
      · split_ifs <;> simp
  have heq : LevelManager.calculateStars lm =
      if lm.elapsedTime ≤ t0 then 3
      else if lm.elapsedTime ≤ t1 then 2
      else if lm.elapsedTime ≤ t2 then 1
      else 1 := by
    unfold LevelManager.calculateStars
    split
    · next h => rw [h] at hlvl; exact absurd hlvl (by simp)
    · next lvl' h =>
      rw [hlvl] at h
      injection h with h'
      subst h'
      split
      · next h2 => rw [hst] at h2; exact absurd h2 (by simp)
      · next u0 u1 u2 h2 =>
        rw [hst] at h2
        injection h2 with h3
        obtain ⟨rfl, rfl, rfl⟩ : t0 = u0 ∧ t1 = u1 ∧ t2 = u2 := by
          have := h3
          simp only [Prod.mk.injEq] at this
          exact ⟨this.1, this.2.1, this.2.2⟩
        rfl
  rw [heq]
  refine ⟨fun h => ?_, fun ha hb => ?_, fun ha hb => ?_, fun h => ?_, hnz⟩ <;>
    split_ifs <;> first | rfl | linarith

/-- Witness for C7: thresholds `[60, 90, 120]` with elapsed time 75
give 2 stars. -/
theorem calculateStars_cases_witness :
    LevelManager.calculateStars
      { currentLevel := some { id := 1, timeLimit := none, starTimes := some (60, 90, 120) }
        isActive := true
        levelStartTime := 0
        elapsedTime := 75
        targetMeshes := []
        targetStates := [] } = 2 :=
  (calculateStars_cases _ _ 60 90 120 rfl rfl (by norm_num) (by norm_num)).2.1
    (by norm_num) (by norm_num)

/-! ## C8: progress monotonicity -/

/-- Counterexample for C8 as stated: the JS guard
`!levelBestTimes[levelId]` treats a stored best time of `0` as absent,
so saving time `0` and then a strictly slower time `5` for the same
level overwrites the stored `0` with `5`, although `5 < 0` is false.
(The star half behaves as claimed here: stars 2 then 1 leaves 2.) -/
theorem saveProgress_slower_time_overwrites :
    (Storage.saveProgress Storage.defaultProgress 1 2 0).levelBestTimes 1 = some 0 ∧
    (Storage.saveProgress (Storage.saveProgress Storage.defaultProgress 1 2 0) 1 1 5).levelBestTimes 1
      = some 5 ∧
    ¬((5 : ℚ) < 0) ∧
    (Storage.saveProgress (Storage.saveProgress Storage.defaultProgress 1 2 0) 1 1 5).levelStars 1
      = some 2 := by
  refine ⟨?_, ?_, by norm_num, ?_⟩ <;>
    simp [Storage.saveProgress, Storage.defaultProgress, Storage.timeOverwrite,
      Storage.starsOverwrite]

/-- C8 amended: `saveProgress` changes the stored star count only when
the new count is strictly greater than the stored one — and changes the
stored best time only when the new time is strictly smaller — except
that a stored `0` is treated as absent by the JS falsy guard and is
always overwritten. Equivalently, the post-state tables are exactly a
`max` (stars) and a `min` (times) of the stored and new values, with a
stored `0` replaced outright. -/
theorem saveProgress_monotone (p : Progress) (levelId stars : ℕ) (time : ℚ) :
    (Storage.saveProgress p levelId stars time).levelStars levelId =
      some (match p.levelStars levelId with
            | none => stars
            | some s => if s = 0 then stars else max s stars) ∧
    (Storage.saveProgress p levelId stars time).levelBestTimes levelId =
      some (match p.levelBestTimes levelId with
            | none => time
            | some b => if b = 0 then time else min b time) := by
  constructor
  · unfold Storage.saveProgress Storage.starsOverwrite
    rcases hs : p.levelStars levelId with _ | s
    · simp [hs]
    · simp only [hs]
      by_cases h0 : s = 0
      · subst h0; simp
      · by_cases hlt : s < stars
        · simp [h0, hlt, Nat.max_eq_right (le_of_lt hlt)]
        · simp [h0, hlt, hs, Nat.max_eq_left (Nat.le_of_not_lt hlt)]
  · unfold Storage.saveProgress Storage.timeOverwrite
    rcases hb : p.levelBestTimes levelId with _ | b
    · simp [hb]
    · simp only [hb]
      by_cases h0 : b = 0
      · subst h0; simp
      · by_cases hlt : time < b
        · simp [h0, hlt, min_eq_right (le_of_lt hlt)]
        · simp [h0, hlt, hb, min_eq_left (not_lt.mp hlt)]

/-! ## C5: an object at rest on the floor stays exactly on the floor -/

/-- One physics step with no colliders keeps an object that is at rest
on the floor (`pos.y = radius`, zero velocity) at rest on the floor,
whatever `dt` is: gravity pulls it below the floor (or, when `onFloor`
is set, is skipped), and the floor clamp restores `pos.y = radius` and
zeroes the velocity. -/
theorem stepObject_rest (dt : ℝ) (o : Obj)
    (hy : o.pos.y = o.radius) (hv : o.vel = ⟨0, 0, 0⟩) :
    (stepObject dt [] o).radius = o.radius ∧
    (stepObject dt [] o).pos.y = o.radius ∧
    (stepObject dt [] o).vel = ⟨0, 0, 0⟩ ∧
    (stepObject dt [] o).isStatic = o.isStatic := by
  unfold stepObject stepFloor stepIntegrate stepGravity
  simp only [List.foldl_nil]
  by_cases hf : o.onFloor
  · rw [if_pos hf]
    have hpos : o.pos.addScaledVector o.vel dt = o.pos := by
      rw [hv]; unfold Vec3.addScaledVector; simp
    rw [hpos]
    rw [if_neg (by rw [hy]; exact lt_irrefl _)]
    exact ⟨rfl, hy, hv, rfl⟩
  · rw [if_neg hf]
    have hvel : (⟨o.vel.x, o.vel.y + gravity * dt, o.vel.z⟩ : Vec3)
        = ⟨0, gravity * dt, 0⟩ := by rw [hv]; simp
    rw [hvel]
    have hpos : o.pos.addScaledVector ⟨0, gravity * dt, 0⟩ dt
        = ⟨o.pos.x, o.radius + gravity * dt * dt, o.pos.z⟩ := by
      unfold Vec3.addScaledVector
      simp [hy]
    rw [hpos]
    by_cases hdt : dt = 0
    · subst hdt
      rw [if_neg (by simp)]
      simp [gravity]
    · rw [if_pos ?side]
      case side =>
        simp only
        have : gravity * dt * dt < 0 := by
          have h2 : 0 < dt * dt := mul_self_pos.mpr hdt
          have : gravity < 0 := by norm_num [gravity]
          nlinarith
        linarith
      simp

/-- The registry update on a single-object registry with nothing
attached reduces to one `stepObject` with the clamped `dt`. -/
theorem update_singleton (dt : ℝ) (o : Obj) (hs : o.isStatic = false) :
    ObjectManager.update dt [] ⟨[o], none⟩ = ⟨[stepObject (clampDt dt) [] o], none⟩ := by
  unfold ObjectManager.update
  simp [hs]

/-- C5: a free, non-static object at rest on the floor (`pos.y` equal
to its radius, zero velocity) still has `pos.y` exactly equal to its
radius after any number of physics updates with no arm colliders, for
any sequence of elapsed times. -/
theorem rest_on_floor_stays (o : Obj) (dts : List ℝ)
    (hy : o.pos.y = o.radius) (hv : o.vel = ⟨0, 0, 0⟩) (hs : o.isStatic = false) :
    ((dts.foldl (fun m dt => ObjectManager.update dt [] m) ⟨[o], none⟩).objects.map
      (fun x => x.pos.y)) = [o.radius] := by
  induction dts generalizing o with
  | nil => simp [hy]
  | cons d rest ih =>
    rw [List.foldl_cons, update_singleton d o hs]
    obtain ⟨hr, hy', hv', hs'⟩ := stepObject_rest (clampDt d) o hy hv
    have := ih (stepObject (clampDt d) [] o) (by rw [hy', hr]) hv' (by rw [hs', hs])
    rw [this, hr]

/-- Witness for C5: a concrete cube of radius 0.15 resting at height
0.15 stays at height exactly 0.15 over the frame times `[0.016, 3]`. -/
theorem rest_on_floor_stays_witness :
    ((([0.016, 3] : List ℝ).foldl (fun m dt => ObjectManager.update dt [] m)
        ⟨[{ id := 5, shape := .cube, spawnSize := 0.3, color := "#ffa502",
            pos := ⟨1, 0.15, 2⟩, vel := ⟨0, 0, 0⟩, pickable := true,
            isStatic := false, radius := 0.15, onFloor := false,
            userDataSize := none }], none⟩).objects.map (fun x => x.pos.y)) = [(0.15 : ℝ)] :=
  rest_on_floor_stays
    { id := 5, shape := .cube, spawnSize := 0.3, color := "#ffa502",
      pos := ⟨1, 0.15, 2⟩, vel := ⟨0, 0, 0⟩, pickable := true,
      isStatic := false, radius := 0.15, onFloor := false,
      userDataSize := none } [0.016, 3] rfl rfl rfl

/-! ## C10: no physics update moves a free object below the floor -/

/-- Normalization keeps the sign of a non-negative vertical component:
the divisor `length() || 1` is strictly positive. -/
theorem normalize_y_nonneg (v : Vec3) (h : 0 ≤ v.y) : 0 ≤ v.normalize.y := by
  unfold Vec3.normalize
  simp only
  by_cases h0 : v.length = 0
  · rw [if_pos h0]; simpa using h
  · rw [if_neg h0]
    exact div_nonneg h (le_of_lt (lt_of_le_of_ne (Real.sqrt_nonneg _) (Ne.symm h0)))

/-- One arm-collider interaction never lowers an object that is at or
above the floor, and touches neither its radius nor its identity: the
push direction's vertical component is deflected upward before the
positional correction is applied. -/
theorem stepCollider_above_floor (o : Obj) (c : Collider) (h : o.radius ≤ o.pos.y) :
    (stepCollider o c).radius ≤ (stepCollider o c).pos.y ∧
    (stepCollider o c).radius = o.radius ∧
    (stepCollider o c).id = o.id ∧
    (stepCollider o c).isStatic = o.isStatic := by
  unfold stepCollider
  simp only
  by_cases hd : o.pos.distanceTo c.pos < o.radius + c.radius
  · rw [if_pos hd]
    refine ⟨?_, rfl, rfl, rfl⟩
    have hy0 : 0 ≤ (if (Vec3.sub o.pos c.pos).normalize.y < 0 then
        { (Vec3.sub o.pos c.pos).normalize with y := 0.1 }
        else (Vec3.sub o.pos c.pos).normalize).normalize.y := by
      apply normalize_y_nonneg
      by_cases hneg : (Vec3.sub o.pos c.pos).normalize.y < 0
      · rw [if_pos hneg]; norm_num
      · rw [if_neg hneg]; exact le_of_not_lt hneg
    have hov : 0 ≤ (o.radius + c.radius - o.pos.distanceTo c.pos) * 1.5 := by
      have := sub_pos.mpr hd
      positivity
    unfold Vec3.addScaledVector
    simp only
    nlinarith [mul_nonneg hy0 hov]
  · rw [if_neg hd]
    exact ⟨h, rfl, rfl, rfl⟩

/-- The whole arm-collider pass keeps an object at or above the floor
and preserves its radius, id and static flag. -/
theorem foldl_colliders_above_floor (cs : List Collider) (o : Obj)
    (h : o.radius ≤ o.pos.y) :
    (cs.foldl stepCollider o).radius ≤ (cs.foldl stepCollider o).pos.y ∧
    (cs.foldl stepCollider o).radius = o.radius ∧
    (cs.foldl stepCollider o).id = o.id ∧
    (cs.foldl stepCollider o).isStatic = o.isStatic := by
  induction cs generalizing o with
  | nil => exact ⟨h, rfl, rfl, rfl⟩
  | cons c rest ih =>
    rw [List.foldl_cons]
    obtain ⟨h1, h2, h3, h4⟩ := stepCollider_above_floor o c h
    obtain ⟨g1, g2, g3, g4⟩ := ih (stepCollider o c) h1
    exact ⟨g1, g2.trans h2, g3.trans h3, g4.trans h4⟩

/-- The floor clamp leaves every object at or above the floor,
whatever state it was in before, and preserves radius, id and the
static flag. -/
theorem stepFloor_above_floor (o : Obj) :
    (stepFloor o).radius ≤ (stepFloor o).pos.y ∧
    (stepFloor o).radius = o.radius ∧
    (stepFloor o).id = o.id ∧
    (stepFloor o).isStatic = o.isStatic := by
  unfold stepFloor
  by_cases hc : o.pos.y < o.radius
  · rw [if_pos hc]; exact ⟨le_refl _, rfl, rfl, rfl⟩
  · rw [if_neg hc]; exact ⟨le_of_not_lt hc, rfl, rfl, rfl⟩

/-- A full per-object physics step ends at or above the floor,
unconditionally: the floor clamp runs before the arm-collider pass and
the pass never pushes downward. -/
theorem stepObject_above_floor (dt : ℝ) (cs : List Collider) (o : Obj) :
    (stepObject dt cs o).radius ≤ (stepObject dt cs o).pos.y ∧
    (stepObject dt cs o).id = o.id ∧
    (stepObject dt cs o).isStatic = o.isStatic := by
  unfold stepObject
  obtain ⟨f1, f2, f3, f4⟩ := stepFloor_above_floor (stepIntegrate dt (stepGravity dt o))
  obtain ⟨g1, _, g3, g4⟩ := foldl_colliders_above_floor cs _ f1
  have hid : (stepIntegrate dt (stepGravity dt o)).id = o.id := by
    unfold stepIntegrate stepGravity
    by_cases hf : o.onFloor <;> simp [hf]
  have hst : (stepIntegrate dt (stepGravity dt o)).isStatic = o.isStatic := by
    unfold stepIntegrate stepGravity
    by_cases hf : o.onFloor <;> simp [hf]
  exact ⟨g1, g3.trans (f3.trans hid), g4.trans (f4.trans hst)⟩

/-- C10: after every physics update, every non-attached, non-static
object in the registry has `pos.y` at least its radius. -/
theorem update_above_floor (dt : ℝ) (cs : List Collider) (m : Mgr) (o' : Obj)
    (hmem : o' ∈ (ObjectManager.update dt cs m).objects)
    (hatt : m.attachedId ≠ some o'.id) (hst : o'.isStatic = false) :
    o'.radius ≤ o'.pos.y := by
  unfold ObjectManager.update at hmem
  simp only [List.mem_map] at hmem
  obtain ⟨o, _, rfl⟩ := hmem
  by_cases h1 : m.attachedId = some o.id
  · rw [if_pos h1] at hatt hst ⊢
    exact absurd h1 hatt
  · rw [if_neg h1] at hatt hst ⊢
    by_cases h2 : o.isStatic
    · rw [if_pos h2] at hst ⊢
      exact absurd hst (by simp [h2])
    · rw [if_neg h2] at hst ⊢
      exact (stepObject_above_floor (clampDt dt) cs o).1

/-- A sample free-falling sphere used to witness the floor invariant. -/
noncomputable def sampleSphere : Obj :=
  { id := 7, shape := .sphere, spawnSize := 0.2, color := "#ff4757",
    pos := ⟨0, 2, 0⟩, vel := ⟨0, 0, 0⟩, pickable := true, isStatic := false,
    radius := 0.1, onFloor := false, userDataSize := none }

/-- Witness for C10: a concrete falling object processed by a concrete
update ends at or above the floor. -/
theorem update_above_floor_witness :
    stepObject (clampDt 1) [] sampleSphere
      ∈ (ObjectManager.update 1 [] ⟨[sampleSphere], none⟩).objects ∧
    (stepObject (clampDt 1) [] sampleSphere).radius ≤
      (stepObject (clampDt 1) [] sampleSphere).pos.y := by
  have hmem : stepObject (clampDt 1) [] sampleSphere
      ∈ (ObjectManager.update 1 [] ⟨[sampleSphere], none⟩).objects := by
    unfold ObjectManager.update
    simp [sampleSphere]
  refine ⟨hmem, update_above_floor 1 [] _ _ hmem (by simp) ?_⟩
  have := (stepObject_above_floor (clampDt 1) [] sampleSphere).2.2
  rw [this]
  rfl

/-! ## C1: candidate-selection conditions in checkClamping -/

/-- Invariant maintained by the candidate loop of `checkClamping`: the
best-distance bound never grows past its initial `1.0`, and any held
candidate is a pickable, unattached registry object whose distance is
the current bound and whose effective size lies within
`[gripperWidth - 0.2, gripperWidth + 0.05]`. -/
def clampInv (m : Mgr) (c : Vec3) (gw : ℝ) (acc : Option Obj × ℝ) : Prop :=
  acc.2 ≤ 1 ∧ ∀ o, acc.1 = some o → o ∈ m.objects ∧ o.pickable = true ∧
    m.attachedId ≠ some o.id ∧ c.distanceTo o.pos = acc.2 ∧
    gw - 0.2 ≤ geomSize o ∧ geomSize o ≤ gw + 0.05

theorem clampStep_preserves (m : Mgr) (c : Vec3) (gw : ℝ) (acc : Option Obj × ℝ)
    (o : Obj) (ho : o ∈ m.objects) (h : clampInv m c gw acc) :
    clampInv m c gw (clampStep c gw m.attachedId acc o) := by
  unfold clampStep
  by_cases h1 : o.pickable = false
  · rw [if_pos h1]; exact h
  · rw [if_neg h1]
    by_cases h2 : m.attachedId = some o.id
    · rw [if_pos h2]; exact h
    · rw [if_neg h2]
      by_cases h3 : c.distanceTo o.pos < acc.2
      · rw [if_pos h3]
        by_cases h4 : gw ≥ geomSize o - 0.05 ∧ gw ≤ geomSize o + 0.2
        · rw [if_pos h4]
          refine ⟨le_of_lt (lt_of_lt_of_le h3 h.1), fun o' ho' => ?_⟩
          obtain rfl : o = o' := Option.some.inj ho'
          have hp : o.pickable = true := by
            cases hb : o.pickable
            · exact absurd hb h1
            · rfl
          exact ⟨ho, hp, h2, rfl, by linarith [h4.2], by linarith [h4.1]⟩
        · rw [if_neg h4]; exact h
      · rw [if_neg h3]; exact h

theorem clampFold_preserves (m : Mgr) (c : Vec3) (gw : ℝ) :
    ∀ (l : List Obj) (acc : Option Obj × ℝ), (∀ o ∈ l, o ∈ m.objects) →
      clampInv m c gw acc →
      clampInv m c gw (l.foldl (clampStep c gw m.attachedId) acc) := by
  intro l
  induction l with
  | nil => intro acc _ h; exact h
  | cons a rest ih =>
    intro acc hsub h
    rw [List.foldl_cons]
    exact ih _ (fun o ho => hsub o (List.mem_cons_of_mem a ho))
      (clampStep_preserves m c gw acc a (hsub a (List.mem_cons_self a rest)) h)

/-- C1 (amended): whenever `checkClamping` selects an object for
attachment, that object is a pickable, unattached registry member, its
distance to the gripper center is below the strict `0.3` bound (hence
below the initial `1.0` bound), and its effective size lies within
`[gripperWidth - 0.2, gripperWidth + 0.05]` — the condition
`gripperWidth ∈ [objSize - 0.05, objSize + 0.2]` of the source read on
the object's size. Contrapositively, no object with size outside that
band is ever attached. -/
theorem checkClamping_sound (m : Mgr) (c lf rf : Vec3) (gw : ℝ) (o : Obj)
    (h : ObjectManager.checkClamping m c gw lf rf = some o) :
    o ∈ m.objects ∧ o.pickable = true ∧ m.attachedId ≠ some o.id ∧
    c.distanceTo o.pos < 0.3 ∧ c.distanceTo o.pos < 1 ∧
    gw - 0.2 ≤ geomSize o ∧ geomSize o ≤ gw + 0.05 := by
  unfold ObjectManager.checkClamping at h
  dsimp only at h
  have hinv : clampInv m c gw
      (m.objects.foldl (clampStep c gw m.attachedId) (none, 1.0)) :=
    clampFold_preserves m c gw m.objects (none, 1.0) (fun _ ho => ho)
      ⟨by norm_num, by simp⟩
  rcases hm : (m.objects.foldl (clampStep c gw m.attachedId) (none, 1.0)).1
    with _ | o0
  · rw [hm] at h; simp at h
  · rw [hm] at h
    dsimp only at h
    by_cases h3 : (m.objects.foldl (clampStep c gw m.attachedId) (none, 1.0)).2 < 0.3
    · rw [if_pos h3] at h
      obtain rfl : o0 = o := Option.some.inj h
      obtain ⟨hmem, hp, hatt, hdist, hb1, hb2⟩ := hinv.2 o0 hm
      rw [hdist]
      exact ⟨hmem, hp, hatt, h3, lt_of_lt_of_le h3 (by norm_num), hb1, hb2⟩
    · rw [if_neg h3] at h; cases h

/-- `checkClamping` on a one-object registry returns that object when
it is pickable, unattached, in band and close enough. -/
theorem checkClamping_singleton_some (o : Obj) (c lf rf : Vec3) (gw : ℝ)
    (att : Option ℕ) (hp : o.pickable = true) (ha : ¬att = some o.id)
    (hd1 : c.distanceTo o.pos < 1.0)
    (hband : gw ≥ geomSize o - 0.05 ∧ gw ≤ geomSize o + 0.2)
    (hd3 : c.distanceTo o.pos < 0.3) :
    ObjectManager.checkClamping ⟨[o], att⟩ c gw lf rf = some o := by
  unfold ObjectManager.checkClamping clampStep
  simp only [List.foldl_cons, List.foldl_nil]
  rw [if_neg (by rw [hp]; simp), if_neg ha, if_pos hd1, if_pos hband]
  simp only
  rw [if_pos hd3]

/-- `checkClamping` on a one-object registry returns nothing when the
object is at or beyond the strict `0.3` distance bound. -/
theorem checkClamping_singleton_none (o : Obj) (c lf rf : Vec3) (gw : ℝ)
    (att : Option ℕ) (hd3 : ¬c.distanceTo o.pos < 0.3) :
    ObjectManager.checkClamping ⟨[o], att⟩ c gw lf rf = none := by
  unfold ObjectManager.checkClamping clampStep
  simp only [List.foldl_cons, List.foldl_nil]
  split_ifs <;> simp_all

/-- A pickable cube of size 0.3 spawned 0.1 away from the origin. -/
noncomputable def nearCube : Obj := spawnObject 1 .cube ⟨0.1, 0, 0⟩ "#ff6b35" 0.3

/-- The same cube placed 0.5 away from the origin. -/
noncomputable def farCube : Obj := spawnObject 1 .cube ⟨0.5, 0, 0⟩ "#ff6b35" 0.3

/-- A cube of size 0.38, 0.2 away from the origin, inside the in-code
size band for gripper width 0.4. -/
noncomputable def bandCube : Obj := spawnObject 2 .cube ⟨0, 0, 0.2⟩ "#ffa502" 0.38

theorem geomSize_nearCube : geomSize nearCube = 0.3 := by
  unfold geomSize nearCube spawnObject
  norm_num

theorem distance_nearCube : (⟨0, 0, 0⟩ : Vec3).distanceTo nearCube.pos = 0.1 := by
  have : nearCube.pos = ⟨0.1, 0, 0⟩ := rfl
  rw [this]
  exact distanceTo_eq _ _ 0.1 (by norm_num) (by norm_num)

/-- The attach step at gripper angle 20° grabs `nearCube`: its size 0.3
satisfies the in-code test `gripperWidth ∈ [0.25, 0.5]` because
`gripperWidth(20°) = 0.16 + 20·(π/180)·0.8 ≈ 0.439`. -/
theorem attachPhase_nearCube :
    (RobotArm.attachPhase 20 ⟨0, 0, 0⟩ ⟨0, 0, 0⟩ ⟨0, 0, 0⟩ ⟨[nearCube], none⟩).attachedId
      = some 1 := by
  have hband : gripperWidthOf 20 ≥ geomSize nearCube - 0.05 ∧
      gripperWidthOf 20 ≤ geomSize nearCube + 0.2 := by
    rw [geomSize_nearCube]
    unfold gripperWidthOf openDistance degToRad
    constructor
    · nlinarith [Real.pi_gt_d6]
    · nlinarith [Real.pi_lt_d2]
  have hcc : ObjectManager.checkClamping ⟨[nearCube], none⟩ ⟨0, 0, 0⟩
      (gripperWidthOf 20) ⟨0, 0, 0⟩ ⟨0, 0, 0⟩ = some nearCube :=
    checkClamping_singleton_some nearCube ⟨0, 0, 0⟩ ⟨0, 0, 0⟩ ⟨0, 0, 0⟩
      (gripperWidthOf 20) none rfl (by simp)
      (by rw [distance_nearCube]; norm_num) hband
      (by rw [distance_nearCube]; norm_num)
  unfold RobotArm.attachPhase
  rw [if_pos rfl, if_pos (by norm_num), hcc]
  rfl

/-- Counterexample for C1 as stated: at gripper angle 20° (gate
`0 < 20 < 40` satisfied, nothing attached), the size-0.3 cube is
attached even though its size lies outside the claimed band
`[gripperWidth - 0.05, gripperWidth + 0.2]` — indeed
`0.3 < gripperWidth(20°) - 0.05 ≈ 0.389`. The source tests
`gripperWidth ∈ [objSize - 0.05, objSize + 0.2]`, i.e.
`objSize ∈ [gripperWidth - 0.2, gripperWidth + 0.05]`. -/
theorem claimed_band_counterexample :
    (RobotArm.attachPhase 20 ⟨0, 0, 0⟩ ⟨0, 0, 0⟩ ⟨0, 0, 0⟩ ⟨[nearCube], none⟩).attachedId
      = some 1 ∧
    ¬(gripperWidthOf 20 - 0.05 ≤ geomSize nearCube ∧
      geomSize nearCube ≤ gripperWidthOf 20 + 0.2) := by
  refine ⟨attachPhase_nearCube, ?_⟩
  rw [geomSize_nearCube]
  intro ⟨h1, _⟩
  unfold gripperWidthOf openDistance degToRad at h1
  nlinarith [Real.pi_gt_d6]

/-- Witness for the amended C1: with gripper width 0.4 the size-0.38
cube at distance 0.2 is selected, and the soundness theorem reports it
pickable, unattached, within 0.3, and in the in-code band
`[0.2, 0.45]`. -/
theorem checkClamping_sound_witness :
    ObjectManager.checkClamping ⟨[bandCube], none⟩ ⟨0, 0, 0⟩ 0.4 ⟨0, 0, 0⟩ ⟨0, 0, 0⟩
      = some bandCube ∧
    (bandCube ∈ (⟨[bandCube], none⟩ : Mgr).objects ∧ bandCube.pickable = true ∧
      (⟨[bandCube], none⟩ : Mgr).attachedId ≠ some bandCube.id ∧
      (⟨0, 0, 0⟩ : Vec3).distanceTo bandCube.pos < 0.3 ∧
      (⟨0, 0, 0⟩ : Vec3).distanceTo bandCube.pos < 1 ∧
      (0.4 : ℝ) - 0.2 ≤ geomSize bandCube ∧ geomSize bandCube ≤ 0.4 + 0.05) := by
  have hdist : (⟨0, 0, 0⟩ : Vec3).distanceTo bandCube.pos = 0.2 := by
    have : bandCube.pos = ⟨0, 0, 0.2⟩ := rfl
    rw [this]
    exact distanceTo_eq _ _ 0.2 (by norm_num) (by norm_num)
  have hgeom : geomSize bandCube = 0.38 := by
    unfold geomSize bandCube spawnObject
    norm_num
  have hcc : ObjectManager.checkClamping ⟨[bandCube], none⟩ ⟨0, 0, 0⟩ 0.4
      ⟨0, 0, 0⟩ ⟨0, 0, 0⟩ = some bandCube :=
    checkClamping_singleton_some bandCube ⟨0, 0, 0⟩ ⟨0, 0, 0⟩ ⟨0, 0, 0⟩ 0.4 none
      rfl (by simp) (by rw [hdist]; norm_num)
      (by rw [hgeom]; constructor <;> norm_num)
      (by rw [hdist]; norm_num)
  exact ⟨hcc, checkClamping_sound _ _ _ _ _ _ hcc⟩

/-! ## C2: attach at 20° for size 0.3 at distance 0.1, not at 0.5 -/

/-- C2: with gripper angle 20° and nothing attached, a pickable object
of size 0.3 at distance 0.1 from the gripper center is attached by the
attach step of a single `updateJoints` call; the same object at
distance 0.5 is not attached at any point of the call (its distance
fails the strict 0.3 bound, so `checkClamping` returns nothing and the
whole grasp pass leaves the registry unattached). -/
theorem grasp_attach_spec :
    (RobotArm.attachPhase 20 ⟨0, 0, 0⟩ ⟨0, 0, 0⟩ ⟨0, 0, 0⟩ ⟨[nearCube], none⟩).attachedId
      = some 1 ∧
    (RobotArm.updateJointsGrasp 20 ⟨0, 0, 0⟩ ⟨0, 0, 0⟩ ⟨0, 0, 0⟩
      ⟨[farCube], none⟩).attachedId = none := by
  refine ⟨attachPhase_nearCube, ?_⟩
  have hdist : (⟨0, 0, 0⟩ : Vec3).distanceTo farCube.pos = 0.5 := by
    have : farCube.pos = ⟨0.5, 0, 0⟩ := rfl
    rw [this]
    exact distanceTo_eq _ _ 0.5 (by norm_num) (by norm_num)
  have hccf : ObjectManager.checkClamping ⟨[farCube], none⟩ ⟨0, 0, 0⟩
      (gripperWidthOf 20) ⟨0, 0, 0⟩ ⟨0, 0, 0⟩ = none :=
    checkClamping_singleton_none farCube ⟨0, 0, 0⟩ ⟨0, 0, 0⟩ ⟨0, 0, 0⟩
      (gripperWidthOf 20) none (by rw [hdist]; norm_num)
  have hap : RobotArm.attachPhase 20 ⟨0, 0, 0⟩ ⟨0, 0, 0⟩ ⟨0, 0, 0⟩ ⟨[farCube], none⟩
      = ⟨[farCube], none⟩ := by
    unfold RobotArm.attachPhase
    rw [if_pos rfl, if_pos (by norm_num), hccf]
  unfold RobotArm.updateJointsGrasp
  rw [hap]
  rfl

/-! ## C3: the release threshold ignores the object's size -/

/-- A sphere spawned with size 0.2 (its `userData.size` is absent). -/
noncomputable def smallSphere : Obj := spawnObject 3 .sphere ⟨0, 0, 0⟩ "#ff4757" 0.2

/-- C3 failing input: the release check reads
`attachedObject.userData.size || 0.3`, but `spawnObject` never sets
`userData.size`, so the threshold is the fallback `0.3 + 0.1 = 0.4`
regardless of the object's real size. At gripper angle 12° the width
`0.16 + 12·(π/180)·0.8 ≈ 0.328` exceeds the attached sphere's
`objectSize + 0.1 = 0.3`, yet the object stays attached because the
width does not exceed `0.4`. -/
theorem release_ignores_object_size :
    (RobotArm.releasePhase 12 ⟨[smallSphere], some 3⟩).attachedId = some 3 ∧
    gripperWidthOf 12 > smallSphere.spawnSize + 0.1 ∧
    smallSphere.userDataSize = none := by
  refine ⟨?_, ?_, rfl⟩
  · have hfind : ([smallSphere].find? fun o => o.id = 3) = some smallSphere := by
      simp [smallSphere, spawnObject]
    have h40 : ¬(gripperWidthOf 12 > jsOrNum smallSphere.userDataSize 0.3 + 0.1) := by
      have : jsOrNum smallSphere.userDataSize 0.3 = 0.3 := rfl
      rw [this]
      unfold gripperWidthOf openDistance degToRad
      intro hgt
      nlinarith [Real.pi_lt_d2]
    unfold RobotArm.releasePhase
    dsimp only
    rw [hfind]
    dsimp only
    rw [if_neg h40]
  · have : smallSphere.spawnSize = 0.2 := rfl
    rw [this]
    unfold gripperWidthOf openDistance degToRad
    nlinarith [Real.pi_gt_d6]

/-! ## C6: timeout precedes the win check -/

/-- C6: while a level is active with a (positive) time limit, a frame
update whose elapsed time exceeds the limit returns
`{status: 'failed', reason: 'timeout'}` for every possible set of live
objects and targets — in particular also when every target is filled in
that same frame — because the timeout test runs before the win check.
(A time limit of exactly `0` would be skipped by the JS falsy guard,
hence the positivity hypothesis.) -/
theorem update_timeout_precedence (now : ℚ) (objs : List Obj) (lm : LM)
    (lvl : Level) (tl : ℚ)
    (hact : lm.isActive = true) (hlvl : lm.currentLevel = some lvl)
    (htl : lvl.timeLimit = some tl) (hpos : 0 < tl)
    (hexp : tl < (now - lm.levelStartTime) / 1000) :
    (LevelManager.update now objs lm).1 = some .failedTimeout := by
  have hhit : LevelManager.timeLimitHit lvl ((now - lm.levelStartTime) / 1000) = true := by
    unfold LevelManager.timeLimitHit
    rw [htl]
    simp only [Bool.and_eq_true, bne_iff_ne, ne_eq, decide_eq_true_eq]
    exact ⟨by simpa using ne_of_gt hpos, hexp⟩
  unfold LevelManager.update
  rw [hact, if_neg (by simp), hlvl]
  dsimp only
  rw [if_pos hhit]

/-- A target at the origin of acceptance radius 1 accepting cubes. -/
noncomputable def originTarget : Target :=
  { pos := ⟨0, 0, 0⟩, size := 1, accepts := some [.cube], requiredColor := none }

/-- A cube spawned at the origin, inside `originTarget`. -/
noncomputable def originCube : Obj := spawnObject 9 .cube ⟨0, 0, 0⟩ "#ff6b35" 0.3

/-- An active level state with time limit 10 s and one target. -/
noncomputable def timedLM : LM :=
  { currentLevel := some { id := 1, timeLimit := some 10, starTimes := none }
    isActive := true
    levelStartTime := 0
    elapsedTime := 0
    targetMeshes := [originTarget]
    targetStates := [] }

theorem originCube_fills : fillsTarget originCube originTarget := by
  refine ⟨?_, ⟨[.cube], rfl, by simp [originCube, spawnObject]⟩, by simp [originTarget]⟩
  have h0 : originCube.pos.distanceTo originTarget.pos = 0 :=
    distanceTo_eq _ _ 0 le_rfl (by norm_num [originCube, spawnObject, originTarget])
  rw [h0, show originTarget.size = 1 from rfl]
  norm_num

/-- Witness for C6: at wall-clock 11000 ms (elapsed 11 s > limit 10 s)
the frame reports the timeout even though the single target is filled
by the cube sitting on it in that very frame. -/
theorem update_timeout_precedence_witness :
    (0 : ℚ) < 10 ∧ (10 : ℚ) < (11000 - 0) / 1000 ∧
    (LevelManager.updateTargetStates [originCube] [originTarget]).all
      (fun s => s.filled) = true ∧
    (LevelManager.update 11000 [originCube] timedLM).1 = some .failedTimeout := by
  refine ⟨by norm_num, by norm_num, ?_, ?_⟩
  · unfold LevelManager.updateTargetStates
    simp only [List.foldl_cons, List.foldl_nil, List.map]
    unfold applyObj
    rw [if_pos originCube_fills]
    rfl
  · refine update_timeout_precedence 11000 [originCube] timedLM
      { id := 1, timeLimit := some 10, starTimes := none } 10 rfl rfl rfl
      (by norm_num) ?_
    rw [show timedLM.levelStartTime = 0 from rfl]
    norm_num

/-! ## C9: one object cannot satisfy two overlapping targets -/

/-- Counterexample for C9 as stated: a single cube lying inside the
acceptance radius of two identical overlapping targets (both of which
accept its shape, with no required color) fills only the first target
in the per-frame evaluation; the second target stays unfilled because
the inner target loop `break`s after the first match. -/
theorem overlapping_targets_counterexample :
    (LevelManager.updateTargetStates [originCube] [originTarget, originTarget]).map
      (fun s => s.filled) = [true, false] ∧
    originCube.pos.distanceTo originTarget.pos < originTarget.size ∧
    (∃ l, originTarget.accepts = some l ∧ originCube.shape ∈ l) := by
  refine ⟨?_, originCube_fills.1, originCube_fills.2.1⟩
  unfold LevelManager.updateTargetStates
  simp only [List.foldl_cons, List.foldl_nil, List.map]
  unfold applyObj
  rw [if_pos originCube_fills]
  rfl

theorem applyObj_keeps_count (o : Obj) :
    ∀ (ts : List Target) (ss : List TargetState),
      (∀ s ∈ ss, s.filled = false) →
      (applyObj o ts ss).countP (fun s => s.filled) ≤ 1 := by
  intro ts
  induction ts with
  | nil =>
    intro ss hss
    have : applyObj o [] ss = ss := by cases ss <;> rfl
    rw [this, List.countP_eq_zero.mpr (by intro s hs; simp [hss s hs])]
    norm_num
  | cons t ts ih =>
    intro ss hss
    cases ss with
    | nil => rw [show applyObj o (t :: ts) [] = [] from rfl]; simp
    | cons s ss' =>
      unfold applyObj
      by_cases hf : fillsTarget o t
      · rw [if_pos hf]
        rw [List.countP_cons_of_pos _ _ (by simp)]
        rw [List.countP_eq_zero.mpr
          (by intro x hx; simp [hss x (List.mem_cons_of_mem s hx)])]
      · rw [if_neg hf]
        by_cases hsf : s.filled = true
        · exact absurd hsf (by simp [hss s (List.mem_cons_self s ss')])
        · rw [List.countP_cons_of_neg _ _ (by simpa using hsf)]
          exact ih ss' (fun x hx => hss x (List.mem_cons_of_mem s hx))

/-- C9 (amended): a single live object satisfies at most one target per
target-state evaluation — the first matching one in target order — so
two overlapping targets are never both marked filled by the same object
in the same frame. -/
theorem single_object_fills_at_most_one (o : Obj) (ts : List Target) :
    (LevelManager.updateTargetStates [o] ts).countP (fun s => s.filled) ≤ 1 := by
  unfold LevelManager.updateTargetStates
  simp only [List.foldl_cons, List.foldl_nil]
  refine applyObj_keeps_count o ts _ (fun s hs => ?_)
  obtain ⟨t, _, rfl⟩ := List.mem_map.mp hs
  rfl

end Arm3D
